import Mathlib

/-!
Verification of the extraction-strategy orchestration in
src/scripts/extract_gamedata.py (sc-interdiction).

The script is embedded shallowly: each external process invocation is
abstracted by a `RunResult` supplied by an environment record, the
filesystem is a function from file name to optional byte size, and every
orchestration function returns, besides its result, the list of external
commands it issued, so that claims about which commands run (and in which
order) become statements about that list.
-/

namespace ExtractGamedata

/-- Outcome of attempting to run one external command: either the
executable named in the command could not be located (Python raises
FileNotFoundError), or the tool ran and exited with the given code. -/
inductive RunResult where
  | notFound
  | exited (code : Int)
deriving DecidableEq, Repr

/-- Exit code 0 means the command succeeded; a command whose executable is
absent did not succeed. -/
def runOk : RunResult → Bool
  | RunResult.notFound => false
  | RunResult.exited code => code == 0

/-- The external commands the script can spawn, identified by shape. -/
inductive Cmd where
  | gitVersion
  | gitClone
  | gitPullFFOnly
  | scdtCheck
  | scdtForgeExtract
  | scdtLocExport
deriving DecidableEq, Repr

/-- check_git (extract_gamedata.py lines 47-58): run git --version; return
True iff the return code is 0; a FileNotFoundError yields False. The
argument is the result of the spawned git --version process. -/
def check_git (r : RunResult) : Bool :=
  match r with
  | RunResult.notFound => false
  | RunResult.exited code => code == 0

/-- check_scdatatools (lines 61-72): run scdt --help; return True iff the
return code is 0; a FileNotFoundError yields False. -/
def check_scdatatools (r : RunResult) : Bool :=
  match r with
  | RunResult.notFound => false
  | RunResult.exited code => code == 0

/-- Environment seen by clone_scunpacked_data: whether the destination
directory output_dir/scunpacked-data exists, and the results of the two
git commands it might run. -/
structure CloneEnv where
  destExists : Bool
  pullResult : RunResult
  cloneResult : RunResult
deriving DecidableEq, Repr

/-- clone_scunpacked_data (lines 75-110): if the destination exists, run
git pull --ff-only there; otherwise run a depth-1 git clone. Return
whether the single git command succeeded, together with the list of git
commands issued (exceptions, including a missing git, are caught and
reported as False). -/
def clone_scunpacked_data (env : CloneEnv) : Bool × List Cmd :=
  if env.destExists then
    (runOk env.pullResult, [Cmd.gitPullFFOnly])
  else
    (runOk env.cloneResult, [Cmd.gitClone])

/-- Unit suffix of the human-readable size string. -/
inductive SizeUnit where
  | KB
  | MB
deriving DecidableEq, Repr

/-- Unit chosen by the size_human f-string of verify_scunpacked_data
(line 202): MB when size > 1024*1024, KB otherwise. Only the unit suffix
is modelled; the one-decimal mantissa is floating-point formatting. -/
def size_human_unit (size : Nat) : SizeUnit :=
  if size > 1024 * 1024 then SizeUnit.MB else SizeUnit.KB

/-- Per-file record of verify_scunpacked_data: the Python dict has key
"exists" (here `present`), and, only when the file exists, keys "size"
and "size_human". -/
structure FileInfo where
  present : Bool
  size : Option Nat
  size_human : Option SizeUnit
deriving DecidableEq, Repr

/-- The six expected files of verify_scunpacked_data (lines 185-192). -/
def expected_files : List String :=
  ["items.json", "labels.json", "ships.json",
   "fps-items.json", "ship-items.json", "manufacturers.json"]

/-- Status recorded for one file name: present with size and human size
when the filesystem has it, otherwise only exists=False (lines 196-205).
The filesystem is the map from file name (relative to the scunpacked-data
directory) to byte size, none when absent. -/
def fileInfo (fs : String → Option Nat) (filename : String) : FileInfo :=
  match fs filename with
  | some size => FileInfo.mk true (some size) (some (size_human_unit size))
  | none => FileInfo.mk false none none

/-- verify_scunpacked_data (lines 182-207): one record per expected file,
in order, as an association list (the Python dict preserves insertion
order). -/
def verify_scunpacked_data (fs : String → Option Nat) :
    List (String × FileInfo) :=
  expected_files.map (fun filename => (filename, fileInfo fs filename))

/-- Environment of a mirror-sync run of main (default branch, lines
297-334): result of the git --version probe, whether the scunpacked-data
directory already exists, the --update flag, results of the git commands
clone_scunpacked_data may run, and the filesystem state that the final
verification observes. -/
structure MirrorEnv where
  gitVersionResult : RunResult
  destExists : Bool
  update : Bool
  pullResult : RunResult
  cloneResult : RunResult
  fs : String → Option Nat

/-- Observable outcome of a mirror-sync run: process exit status, the
external commands issued in order, and whether the already-exists message
(line 309) was logged. -/
structure MirrorRun where
  exitCode : Nat
  cmds : List Cmd
  reportedAlreadyPresent : Bool

/-- main, scunpacked-data branch (lines 297-334): check git, else exit 1;
if the destination exists and --update was not given, skip acquisition
and log that the data already exists; otherwise clone or update, exiting
1 on failure; finally verify and exit 0 iff every expected file exists. -/
def main_mirror (env : MirrorEnv) : MirrorRun :=
  if check_git env.gitVersionResult = false then
    MirrorRun.mk 1 [Cmd.gitVersion] false
  else if env.destExists && !env.update then
    let results := verify_scunpacked_data env.fs
    let all_exist := results.all (fun p => p.2.present)
    MirrorRun.mk (if all_exist then 0 else 1) [Cmd.gitVersion] true
  else
    let step := clone_scunpacked_data
      (CloneEnv.mk env.destExists env.pullResult env.cloneResult)
    if step.1 = false then
      MirrorRun.mk 1 (Cmd.gitVersion :: step.2) false
    else
      let results := verify_scunpacked_data env.fs
      let all_exist := results.all (fun p => p.2.present)
      MirrorRun.mk (if all_exist then 0 else 1) (Cmd.gitVersion :: step.2) false

/-- Environment of a direct-extract run of main (--from-p4k branch, lines
264-295): whether the archive file exists, and the results of the scdt
probe and the two extraction commands. -/
structure DirectSrcEnv where
  p4kExists : Bool
  scdtHelpResult : RunResult
  forgeResult : RunResult
  locResult : RunResult
deriving DecidableEq, Repr

/-- main, --from-p4k branch (lines 264-295): exit 1 if the archive path
does not exist (before any process is spawned); exit 1 if scdt is not
available; otherwise run DataForge extraction then localization
extraction and exit 0 iff both succeeded. Returns the exit status and
the commands spawned, in order. -/
def main_direct (env : DirectSrcEnv) : Nat × List Cmd :=
  if env.p4kExists = false then
    (1, [])
  else if check_scdatatools env.scdtHelpResult = false then
    (1, [Cmd.scdtCheck])
  else
    let df_success := runOk env.forgeResult
    let loc_success := runOk env.locResult
    (if df_success && loc_success then 0 else 1,
     [Cmd.scdtCheck, Cmd.scdtForgeExtract, Cmd.scdtLocExport])

/-- Modelled from the spec: the repository's direct-extract-only script
(the second script under the same filename noted in the spec's design
notes) is not present under src/; this is its sub-selector restricting a
direct-extract run to one sub-dataset or both. -/
inductive Selector where
  | dataforgeOnly
  | localizationOnly
  | both
deriving DecidableEq, Repr

/-- Modelled from the spec: commands of the missing direct-extract
script: the record-export subcommand, the localization-export
subcommand, and the fallback raw extraction from the archive with a
file-pattern filter. -/
inductive DCmd where
  | forgeExtract
  | locExport
  | p4kExtractFallback
deriving DecidableEq, Repr

/-- Modelled from the spec: environment of the missing direct-extract
script: archive existence, tool availability, the results of the three
possible commands, and the post-extraction filesystem observations its
verification makes (JSON-file count beneath the dataforge output
directory, CSV line count, fallback INI line count). -/
structure DirectEnv where
  archiveExists : Bool
  toolAvailable : Bool
  forgeResult : RunResult
  locExportResult : RunResult
  p4kExtractResult : RunResult
  jsonCount : Nat
  csvLines : Option Nat
  iniLines : Option Nat
deriving DecidableEq, Repr

/-- Modelled from the spec: record extraction of the missing
direct-extract script: invoke the record-export subcommand; success iff
it exits 0. Returns success and the commands issued. -/
def extract_records_spec (env : DirectEnv) : Bool × List DCmd :=
  (runOk env.forgeResult, [DCmd.forgeExtract])

/-- Modelled from the spec: localization extraction of the missing
direct-extract script: invoke the localization-export subcommand; if it
fails, fall back to raw file extraction with a file-pattern filter;
localization fails only when both fail. Returns success and the commands
issued, in order. -/
def extract_localization_spec (env : DirectEnv) : Bool × List DCmd :=
  if runOk env.locExportResult then
    (true, [DCmd.locExport])
  else
    (runOk env.p4kExtractResult, [DCmd.locExport, DCmd.p4kExtractFallback])

/-- Modelled from the spec: the missing script's direct-extract
acquisition: two independent sub-steps, each optional per the selector;
aggregate success is record-extraction success AND localization success,
gated by which sub-steps were selected (a skipped step does not count
against success). -/
def direct_extract (env : DirectEnv) (sel : Selector) : Bool × List DCmd :=
  let dfStep :=
    if sel = Selector.localizationOnly then (true, ([] : List DCmd))
    else extract_records_spec env
  let locStep :=
    if sel = Selector.dataforgeOnly then (true, ([] : List DCmd))
    else extract_localization_spec env
  (dfStep.1 && locStep.1, dfStep.2 ++ locStep.2)

/-- Modelled from the spec: the missing script's direct-extract
verification manifest: the JSON-file count beneath the dataforge output
directory, and the CSV line count, or, when the CSV is absent, the
fallback INI line count. Pure filesystem inspection. -/
def verify_direct (env : DirectEnv) : Nat × Option Nat :=
  (env.jsonCount,
   match env.csvLines with
   | some n => some n
   | none => env.iniLines)

/-- Modelled from the spec: observable events of the missing script's
orchestrator, in order: precondition failure, tool-missing failure, an
external command run, the verification against the direct-extract
manifest, and the construction of the final outcome. -/
inductive Event where
  | precondFailed
  | toolMissing
  | ranCmd (c : DCmd)
  | verifiedManifest (jsonCount : Nat) (locLines : Option Nat)
  | outcomeBuilt (success : Bool)
deriving DecidableEq, Repr

/-- Modelled from the spec: the missing script's orchestrator for
direct-extract: validate preconditions (archive exists, tool available),
short-circuiting with exit 1; run acquisition; run verification against
the direct-extract manifest; build the outcome; exit 0 iff all selected
sub-steps succeeded. Returns the exit status and the event trace. -/
def orchestrate_direct (env : DirectEnv) (sel : Selector) :
    Nat × List Event :=
  if env.archiveExists = false then
    (1, [Event.precondFailed])
  else if env.toolAvailable = false then
    (1, [Event.toolMissing])
  else
    let step := direct_extract env sel
    let v := verify_direct env
    (if step.1 then 0 else 1,
     step.2.map Event.ranCmd ++
       [Event.verifiedManifest v.1 v.2, Event.outcomeBuilt step.1])

end ExtractGamedata

namespace ExtractGamedata

/-- C4 counterexample: a tool whose executable cannot be located and a
tool that ran and exited 1 produce the very same outcome False from
check_git (and from check_scdatatools), so the two cases are not
distinguishable by callers. -/
theorem tool_not_found_indistinguishable :
    check_git RunResult.notFound = check_git (RunResult.exited 1) ∧
    check_scdatatools RunResult.notFound =
      check_scdatatools (RunResult.exited 1) := by
  constructor <;> rfl

/-- C4 amended: a tool whose executable cannot be located yields the same
False outcome as a tool that ran and exited nonzero; the availability
checks collapse the two cases, so callers cannot give different advice. -/
theorem tool_checks_collapse_failures (c : Int) (h : c ≠ 0) :
    check_git RunResult.notFound = false ∧
    check_git (RunResult.exited c) = false ∧
    check_scdatatools RunResult.notFound = false ∧
    check_scdatatools (RunResult.exited c) = false := by
  refine ⟨rfl, ?_, rfl, ?_⟩ <;> simp [check_git, check_scdatatools, h]

/-- Witness for the amended C4 at exit code 1. -/
theorem tool_checks_collapse_failures_witness :
    check_git RunResult.notFound = false ∧
    check_git (RunResult.exited 1) = false ∧
    check_scdatatools RunResult.notFound = false ∧
    check_scdatatools (RunResult.exited 1) = false :=
  tool_checks_collapse_failures 1 (by decide)

/-- C5 counterexample: a file of exactly 1048576 bytes is rendered with
the KB suffix, not MB, because the source tests size > 1024*1024
strictly. -/
theorem exact_mib_rendered_kb :
    size_human_unit 1048576 ≠ SizeUnit.MB := by
  decide

/-- C5 amended: for a present file, verification records the byte size
and a human-scaled size suffix that uses MB for sizes strictly above
1 MiB and KB at or below 1 MiB; in particular exactly 1048576 bytes is
rendered in KB. -/
theorem present_file_size_recorded (fs : String → Option Nat) (f : String)
    (n : Nat) (h : fs f = some n) :
    fileInfo fs f = FileInfo.mk true (some n) (some (size_human_unit n)) ∧
    (size_human_unit n = SizeUnit.MB ↔ 1024 * 1024 < n) ∧
    size_human_unit 1048576 = SizeUnit.KB := by
  refine ⟨by simp [fileInfo, h], ?_, by decide⟩
  by_cases hn : 1024 * 1024 < n <;> simp [size_human_unit, hn]

/-- Witness for the amended C5 at a file of exactly 1048576 bytes. -/
theorem present_file_size_recorded_witness :
    fileInfo (fun _ => some 1048576) "labels.json" =
      FileInfo.mk true (some 1048576) (some (size_human_unit 1048576)) ∧
    (size_human_unit 1048576 = SizeUnit.MB ↔ 1024 * 1024 < 1048576) ∧
    size_human_unit 1048576 = SizeUnit.KB :=
  present_file_size_recorded (fun _ => some 1048576) "labels.json" 1048576 rfl

/-- C8: verification is total: for every filesystem state (including one
where every file is absent) the report has one record per expected file,
in order, and an absent file is recorded with exists=False and no size;
no exception is possible. -/
theorem verify_is_total (fs : String → Option Nat) :
    (verify_scunpacked_data fs).map Prod.fst = expected_files ∧
    (∀ f, f ∈ expected_files → fs f = none →
      (f, FileInfo.mk false none none) ∈ verify_scunpacked_data fs) := by
  constructor
  · rw [verify_scunpacked_data, List.map_map]
    exact List.map_id expected_files
  · intro f hf hnone
    refine List.mem_map.mpr ⟨f, hf, ?_⟩
    simp [fileInfo, hnone]

/-- C6: in a mirror-sync run whose destination already exists and whose
force-update flag is false, no clone and no pull command is issued at
all, and (once the git probe passes) the step is a no-op that reports
the data as already present. -/
theorem existing_dest_no_network (env : MirrorEnv)
    (hdest : env.destExists = true) (hupd : env.update = false) :
    (Cmd.gitClone ∉ (main_mirror env).cmds ∧
     Cmd.gitPullFFOnly ∉ (main_mirror env).cmds) ∧
    (check_git env.gitVersionResult = true →
      (main_mirror env).reportedAlreadyPresent = true) := by
  cases hgit : check_git env.gitVersionResult <;>
    simp [main_mirror, hdest, hupd, hgit]

/-- Witness for C6 at a concrete environment: destination present,
update flag off, git available, empty directory contents. -/
theorem existing_dest_no_network_witness :
    (Cmd.gitClone ∉ (main_mirror (MirrorEnv.mk (RunResult.exited 0) true
        false (RunResult.exited 0) (RunResult.exited 0)
        (fun _ => none))).cmds ∧
     Cmd.gitPullFFOnly ∉ (main_mirror (MirrorEnv.mk (RunResult.exited 0)
        true false (RunResult.exited 0) (RunResult.exited 0)
        (fun _ => none))).cmds) ∧
    (check_git (RunResult.exited 0) = true →
      (main_mirror (MirrorEnv.mk (RunResult.exited 0) true false
        (RunResult.exited 0) (RunResult.exited 0)
        (fun _ => none))).reportedAlreadyPresent = true) :=
  existing_dest_no_network
    (MirrorEnv.mk (RunResult.exited 0) true false (RunResult.exited 0)
      (RunResult.exited 0) (fun _ => none)) rfl rfl

/-- C10: verification checks existence only: a zero-byte file is recorded
as present with size 0 (and a KB human size), counts toward the aggregate
all-present result, and a run in which every expected file exists but is
empty exits with status 0. -/
theorem zero_byte_files_count_as_present (env : MirrorEnv)
    (hgit : check_git env.gitVersionResult = true)
    (hdest : env.destExists = true) (hupd : env.update = false)
    (hfs : ∀ f, f ∈ expected_files → env.fs f = some 0) :
    (main_mirror env).exitCode = 0 ∧
    (verify_scunpacked_data env.fs).all (fun p => p.2.present) = true ∧
    (∀ f, f ∈ expected_files →
      (f, FileInfo.mk true (some 0) (some SizeUnit.KB)) ∈
        verify_scunpacked_data env.fs) := by
  have hall :
      (verify_scunpacked_data env.fs).all (fun p => p.2.present) = true := by
    rw [List.all_eq_true]
    intro p hp
    simp only [verify_scunpacked_data] at hp
    rcases List.mem_map.mp hp with ⟨f, hf, rfl⟩
    simp [fileInfo, hfs f hf]
  refine ⟨?_, hall, ?_⟩
  · simp [main_mirror, hgit, hdest, hupd, hall]
  · intro f hf
    refine List.mem_map.mpr ⟨f, hf, ?_⟩
    simp [fileInfo, hfs f hf, size_human_unit]

/-- Witness for C10 at a concrete environment where every expected file
exists with size 0. -/
theorem zero_byte_files_count_as_present_witness :
    (main_mirror (MirrorEnv.mk (RunResult.exited 0) true false
      (RunResult.exited 0) (RunResult.exited 0)
      (fun _ => some 0))).exitCode = 0 ∧
    (verify_scunpacked_data (fun _ => some 0)).all
      (fun p => p.2.present) = true ∧
    (∀ f, f ∈ expected_files →
      (f, FileInfo.mk true (some 0) (some SizeUnit.KB)) ∈
        verify_scunpacked_data (fun _ => some 0)) :=
  zero_byte_files_count_as_present
    (MirrorEnv.mk (RunResult.exited 0) true false (RunResult.exited 0)
      (RunResult.exited 0) (fun _ => some 0))
    rfl rfl rfl (fun _ _ => rfl)

/-- Witness for C8 on the completely absent directory. -/
theorem verify_is_total_witness :
    ((verify_scunpacked_data (fun _ => none)).map Prod.fst =
      expected_files) ∧
    ("items.json", FileInfo.mk false none none) ∈
      verify_scunpacked_data (fun _ => none) :=
  ⟨(verify_is_total (fun _ => none)).1,
   (verify_is_total (fun _ => none)).2 "items.json" (by simp [expected_files])
     rfl⟩

/-- C7: a failed fast-forward-only update reports failure and issues no
further git command: the command list is exactly the single pull, with no
reset and no re-clone. -/
theorem failed_ff_update_is_terminal (env : CloneEnv)
    (hdest : env.destExists = true) (hfail : runOk env.pullResult = false) :
    clone_scunpacked_data env = (false, [Cmd.gitPullFFOnly]) := by
  simp [clone_scunpacked_data, hdest, hfail]

/-- Witness for C7 at a concrete environment: destination present, pull
exits 1. -/
theorem failed_ff_update_is_terminal_witness :
    clone_scunpacked_data
      (CloneEnv.mk true (RunResult.exited 1) (RunResult.exited 0)) =
      (false, [Cmd.gitPullFFOnly]) :=
  failed_ff_update_is_terminal
    (CloneEnv.mk true (RunResult.exited 1) (RunResult.exited 0))
    rfl rfl

/-- C9: a direct-extract run whose archive path does not exist terminates
with exit status 1 and spawns no external process at all (no tool probe,
no extraction command). -/
theorem missing_archive_short_circuits (env : DirectSrcEnv)
    (h : env.p4kExists = false) :
    main_direct env = (1, []) := by
  simp [main_direct, h]

/-- Witness for C9 at a concrete environment: archive absent, everything
else would have succeeded. -/
theorem missing_archive_short_circuits_witness :
    main_direct
      (DirectSrcEnv.mk false (RunResult.exited 0) (RunResult.exited 0)
        (RunResult.exited 0)) = (1, []) :=
  missing_archive_short_circuits
    (DirectSrcEnv.mk false (RunResult.exited 0) (RunResult.exited 0)
      (RunResult.exited 0)) rfl

/-- C1: when the primary localization-export subcommand fails, the
fallback raw extraction is attempted (the command list records the
export followed by the fallback), and the localization step's overall
status is exactly the fallback's success: in particular it is success
when the fallback succeeds, and failure only when both fail. -/
theorem localization_fallback_attempted (env : DirectEnv)
    (hfail : runOk env.locExportResult = false) :
    (extract_localization_spec env).2 =
      [DCmd.locExport, DCmd.p4kExtractFallback] ∧
    (extract_localization_spec env).1 = runOk env.p4kExtractResult := by
  simp [extract_localization_spec, hfail]

/-- Witness for C1 at a concrete environment: export exits 1, fallback
exits 0. -/
theorem localization_fallback_attempted_witness :
    (extract_localization_spec (DirectEnv.mk true true (RunResult.exited 0)
      (RunResult.exited 1) (RunResult.exited 0) 5 (some 100) none)).2 =
      [DCmd.locExport, DCmd.p4kExtractFallback] ∧
    (extract_localization_spec (DirectEnv.mk true true (RunResult.exited 0)
      (RunResult.exited 1) (RunResult.exited 0) 5 (some 100) none)).1 =
      runOk (RunResult.exited 0) :=
  localization_fallback_attempted
    (DirectEnv.mk true true (RunResult.exited 0) (RunResult.exited 1)
      (RunResult.exited 0) 5 (some 100) none) rfl

/-- C2: with the localization-only selector, the record-extraction
subcommand is never run, and the run exits 0 exactly when localization
succeeded, record extraction being absent. -/
theorem localization_only_skips_records (env : DirectEnv)
    (harch : env.archiveExists = true) (htool : env.toolAvailable = true) :
    Event.ranCmd DCmd.forgeExtract ∉
      (orchestrate_direct env Selector.localizationOnly).2 ∧
    ((orchestrate_direct env Selector.localizationOnly).1 = 0 ↔
      (extract_localization_spec env).1 = true) := by
  cases hle : runOk env.locExportResult <;>
    cases hp4k : runOk env.p4kExtractResult <;>
      simp [orchestrate_direct, direct_extract, extract_localization_spec,
        extract_records_spec, verify_direct, harch, htool, hle, hp4k]

/-- Witness for C2 at a concrete environment where localization
succeeds on the first attempt. -/
theorem localization_only_skips_records_witness :
    Event.ranCmd DCmd.forgeExtract ∉
      (orchestrate_direct (DirectEnv.mk true true (RunResult.exited 1)
        (RunResult.exited 0) (RunResult.exited 0) 5 (some 100) none)
        Selector.localizationOnly).2 ∧
    ((orchestrate_direct (DirectEnv.mk true true (RunResult.exited 1)
        (RunResult.exited 0) (RunResult.exited 0) 5 (some 100) none)
        Selector.localizationOnly).1 = 0 ↔
      (extract_localization_spec (DirectEnv.mk true true
        (RunResult.exited 1) (RunResult.exited 0) (RunResult.exited 0) 5
        (some 100) none)).1 = true) :=
  localization_only_skips_records
    (DirectEnv.mk true true (RunResult.exited 1) (RunResult.exited 0)
      (RunResult.exited 0) 5 (some 100) none) rfl rfl

/-- C3: once the preconditions pass, the orchestrator's trace is exactly
the acquisition commands, then the verification against the
direct-extract manifest (JSON-file count beneath the dataforge output
directory, CSV line count or fallback INI line count), then the final
outcome; the exit status is 0 iff the selected sub-steps all
succeeded. -/
theorem verification_runs_before_outcome (env : DirectEnv) (sel : Selector)
    (harch : env.archiveExists = true) (htool : env.toolAvailable = true) :
    (orchestrate_direct env sel).2 =
      (direct_extract env sel).2.map Event.ranCmd ++
        [Event.verifiedManifest (verify_direct env).1 (verify_direct env).2,
         Event.outcomeBuilt (direct_extract env sel).1] ∧
    (orchestrate_direct env sel).1 =
      (if (direct_extract env sel).1 then 0 else 1) := by
  simp [orchestrate_direct, harch, htool]

/-- Witness for C3 at a concrete environment with both sub-steps
selected. -/
theorem verification_runs_before_outcome_witness :
    (orchestrate_direct (DirectEnv.mk true true (RunResult.exited 0)
      (RunResult.exited 0) (RunResult.exited 0) 5 (some 100) none)
      Selector.both).2 =
      (direct_extract (DirectEnv.mk true true (RunResult.exited 0)
        (RunResult.exited 0) (RunResult.exited 0) 5 (some 100) none)
        Selector.both).2.map Event.ranCmd ++
        [Event.verifiedManifest
          (verify_direct (DirectEnv.mk true true (RunResult.exited 0)
            (RunResult.exited 0) (RunResult.exited 0) 5 (some 100)
            none)).1
          (verify_direct (DirectEnv.mk true true (RunResult.exited 0)
            (RunResult.exited 0) (RunResult.exited 0) 5 (some 100)
            none)).2,
         Event.outcomeBuilt
          (direct_extract (DirectEnv.mk true true (RunResult.exited 0)
            (RunResult.exited 0) (RunResult.exited 0) 5 (some 100) none)
            Selector.both).1] ∧
    (orchestrate_direct (DirectEnv.mk true true (RunResult.exited 0)
      (RunResult.exited 0) (RunResult.exited 0) 5 (some 100) none)
      Selector.both).1 =
      (if (direct_extract (DirectEnv.mk true true (RunResult.exited 0)
        (RunResult.exited 0) (RunResult.exited 0) 5 (some 100) none)
        Selector.both).1 then 0 else 1) :=
  verification_runs_before_outcome
    (DirectEnv.mk true true (RunResult.exited 0) (RunResult.exited 0)
      (RunResult.exited 0) 5 (some 100) none) Selector.both rfl rfl

end ExtractGamedata
